import Mathlib

/-
Verification of the Ai-Gateway repository against its specification.

Shallow embedding of the relevant source modules:
  * simulators/modbus_simulator.py   (ModbusTCPSimulator)
  * src/anomaly/documentation_anomaly_detector.py (DocumentationAnomalyDetector)
  * src/cloud/context_service.py     (CloudContextService / VectorDatabase)
  * src/pdf/pdf_parser.py            (PDF extraction helpers)
  * src/mcp_server.py                (BACnet request generation)

Python floats are modelled as rationals, Python ints as Int/Nat, byte
strings as List Nat (each entry one byte / one 16-bit word where noted),
and Python exceptions as Except Unit.  Library calls that the repository
does not implement itself (regex engine, md5 hashing, numpy norm,
datetime parsing) are passed in as explicit function parameters; the
logic around them is translated from the source.
-/

namespace AiGateway

set_option maxRecDepth 100000

deriving instance DecidableEq for Except

/-- Python dict lookup over an association list (dict keys are unique;
insertion order is list order). -/
def lookup {α : Type} : List (String × α) → String → Option α
  | [], _ => none
  | p :: rest, k => if p.1 = k then some p.2 else lookup rest k

/-- Python dict item assignment: replace the value when the key is
present, append otherwise. -/
def update_assoc {α : Type} : List (String × α) → String → α → List (String × α)
  | [], k, v => [(k, v)]
  | p :: rest, k, v => if p.1 = k then (k, v) :: rest else p :: update_assoc rest k v

/-- Python int(x) on a float: truncation toward zero. -/
def pyTrunc (q : ℚ) : ℤ := if 0 ≤ q then ⌊q⌋ else -⌊-q⌋

/-- struct.pack with format >H : one 16-bit value, big endian, as two bytes. -/
def pack16 (x : Nat) : List Nat := [x / 256 % 256, x % 256]

/-! ## Modbus TCP simulator (simulators/modbus_simulator.py) -/

/-- One entry of ModbusTCPSimulator.register_map.  The source stores
name, type ("float" or "int"), unit, value and range; only name, the
float/int distinction and the value are read by the embedded
operations (unit and range are never consulted by the read/write/error
paths). -/
structure RegEntry where
  name : String
  isFloat : Bool
  value : ℚ
deriving DecidableEq

/-- ModbusTCPSimulator.register_map (initial state from the source,
input registers 30001-30008 and holding registers 40001-40006). -/
def register_map : Nat → Option RegEntry := fun a =>
  if a = 30001 then some ⟨"Temperature_Sensor_1", true, 225/10⟩
  else if a = 30002 then some ⟨"Temperature_Sensor_2", true, 231/10⟩
  else if a = 30003 then some ⟨"Pressure_Sensor", true, 25/10⟩
  else if a = 30004 then some ⟨"Flow_Rate", true, 452/10⟩
  else if a = 30005 then some ⟨"Vibration_Level", true, 8/10⟩
  else if a = 30006 then some ⟨"Motor_Speed", false, 1450⟩
  else if a = 30007 then some ⟨"Power_Consumption", true, 153/10⟩
  else if a = 30008 then some ⟨"System_Status", false, 1⟩
  else if a = 40001 then some ⟨"Setpoint_Temperature", true, 25⟩
  else if a = 40002 then some ⟨"Setpoint_Pressure", true, 2⟩
  else if a = 40003 then some ⟨"Control_Mode", false, 1⟩
  else if a = 40004 then some ⟨"Alarm_Threshold", true, 30⟩
  else if a = 40005 then some ⟨"Maintenance_Interval", false, 30⟩
  else if a = 40006 then some ⟨"Calibration_Date", false, 19423⟩
  else none

/-- The unit id from ModbusTCPSimulator.device_info. -/
def modbus_unit_id : Nat := 1

/-- Lines 270-274 of the simulator: a float value is scaled by 100,
truncated to int, and split into two 16-bit words, high word first
(int_val >> 16 & 0xFFFF, int_val & 0xFFFF; Python >> is a floor shift
and & 0xFFFF is mod 2^16). -/
def encode_float_registers (v : ℚ) : List Nat :=
  let n := pyTrunc (v * 100)
  [(n / 65536 % 65536).toNat, (n % 65536).toNat]

/-- ModbusTCPSimulator.create_error_response:
struct.pack(">HHHBB", transaction_id, 0, 3, unit_id, error_code | 0x80). -/
def create_error_response (tid err : Nat) : List Nat :=
  pack16 tid ++ pack16 0 ++ pack16 3 ++ [modbus_unit_id, err ||| 128]

/-- The register-value word list built by the loop in
read_input_registers / read_holding_registers: per address, two words
for a float register, one word for an int register, the word 0 for an
unmapped address. -/
def read_register_words (start qty : Nat) : List Nat :=
  (List.range qty).flatMap (fun i =>
    match register_map (start + i) with
    | some e => if e.isFloat then encode_float_registers e.value else [(pyTrunc e.value).toNat]
    | none => [0])

/-- ModbusTCPSimulator.read_input_registers over a raw request frame
(data : byte list, as received).  Callers reach this function with a
frame of at least 8 bytes (process_modbus_request).  start and qty are
the big-endian 16-bit fields at offsets 8 and 10. -/
def read_input_registers (data : List Nat) (tid : Nat) : List Nat :=
  let start := data.getD 8 0 * 256 + data.getD 9 0
  let qty := data.getD 10 0 * 256 + data.getD 11 0
  if start < 30001 ∨ start + qty > 30009 then
    create_error_response tid 2
  else
    let values := read_register_words start qty
    let byte_count := values.length * 2
    pack16 tid ++ pack16 0 ++ pack16 (byte_count + 3) ++ [modbus_unit_id, 4] ++
      [byte_count] ++ values.flatMap pack16

/-- The float encoding used by the read paths, as a pair
(high word, low word). -/
def modbus_encode_float (f : ℚ) : Nat × Nat :=
  ((pyTrunc (f * 100) / 65536 % 65536).toNat, (pyTrunc (f * 100) % 65536).toNat)

/-- Decoding the two-register layout back to a value: the registers are
recombined high word first and divided by the scale factor 100 (the
inverse of the layout produced by read_input_registers; the
write_single_register path divides a single register by 100.0 in the
same way). -/
def modbus_decode_float (r : Nat × Nat) : ℚ := ((r.1 * 65536 + r.2 : ℕ) : ℚ) / 100

/-- Modelled from the spec: round(f, 2), rounding to two decimal
places.  Python round uses ties-to-even; this model rounds ties up,
and is only ever applied away from ties, where the two agree. -/
def round2 (f : ℚ) : ℚ := ((round (f * 100) : ℤ) : ℚ) / 100

/-- A concrete Read Input Registers request frame: MBAP header with
transaction id 7, protocol id 0, length 6, unit id 1, function code
0x04, start address 30008 (0x7538), quantity 2 (the range 30008..30009
spans beyond the declared map, which ends at 30008). -/
def exModbusReq : List Nat := [0, 7, 0, 0, 0, 6, 1, 4, 117, 56, 0, 2]

/-! ## Documentation-driven anomaly detector
(src/anomaly/documentation_anomaly_detector.py) -/

/-- AnomalyType (all eight members of the source enum). -/
inductive AnomalyType where
  | sensor_drift
  | sensor_failure
  | communication_error
  | value_out_of_range
  | trend_anomaly
  | pattern_anomaly
  | maintenance_overdue
  | environmental_anomaly
deriving DecidableEq

/-- AnomalySeverity. -/
inductive AnomalySeverity where
  | low
  | medium
  | high
  | critical
deriving DecidableEq

/-- AnomalyDetection.  The free-text and clock fields of the source
dataclass (anomaly_id, description, root_cause, estimated_impact,
timestamp, device_context) are identifier strings and timestamps built
from datetime.now(); no claim reads them and they are omitted. -/
structure AnomalyDetection where
  anomaly_type : AnomalyType
  severity : AnomalySeverity
  parameter : String
  current_value : ℚ
  expected_range : ℚ × ℚ
  deviation_percentage : ℚ
  troubleshooting_steps : List String
  maintenance_required : Bool
  detection_confidence : ℚ
deriving DecidableEq

/-- The parameter entries of a device_spec dict: name, unit, the three
nested ranges and the troubleshooting list, as in the demo specs
consumed by the detector. -/
structure ParamSpec where
  name : String
  unit : String
  normal_range : ℚ × ℚ
  warning_range : ℚ × ℚ
  error_range : ℚ × ℚ
  troubleshooting : List String
deriving DecidableEq

/-- A device_spec dict: parameters and maintenance_schedule (intervals
in days, as in the demo specs the detector consumes). -/
structure DeviceSpec where
  parameters : List (String × ParamSpec)
  maintenance_schedule : List (String × Int)
deriving DecidableEq

/-- DocumentationAnomalyDetector._calculate_deviation. -/
def calculate_deviation (value : ℚ) (r : ℚ × ℚ) : ℚ :=
  let range_center := (r.1 + r.2) / 2
  let range_size := r.2 - r.1
  if range_size = 0 then 0 else |value - range_center| / range_size * 100

/-- The loop body of _detect_range_anomalies for one parameter whose
value is present in current_data. -/
def range_check (param_name : String) (ps : ParamSpec) (v : ℚ) : List AnomalyDetection :=
  if v < ps.error_range.1 ∨ v > ps.error_range.2 then
    [⟨.value_out_of_range, .critical, param_name, v, ps.normal_range,
      calculate_deviation v ps.normal_range, ps.troubleshooting, true, 95/100⟩]
  else if v < ps.warning_range.1 ∨ v > ps.warning_range.2 then
    [⟨.value_out_of_range, .medium, param_name, v, ps.normal_range,
      calculate_deviation v ps.normal_range, ps.troubleshooting, false, 85/100⟩]
  else []

/-- DocumentationAnomalyDetector._detect_range_anomalies. -/
def detect_range_anomalies (spec : DeviceSpec) (data : List (String × ℚ)) :
    List AnomalyDetection :=
  spec.parameters.flatMap (fun p =>
    match lookup data p.1 with
    | none => []
    | some v => range_check p.1 p.2 v)

/-- The fixed troubleshooting list of the trend strategy. -/
def trend_steps : List String :=
  ["Check sensor calibration", "Verify environmental conditions",
   "Compare with other sensors", "Schedule sensor maintenance"]

/-- The parameter loop of _detect_trend_anomalies.  Python raises
ZeroDivisionError at the first parameter, in spec order, whose baseline
value is 0 and which is present in both current_data and the baseline;
the exception is modelled as Except.error. -/
def trend_fold (baseline data : List (String × ℚ)) :
    List (String × ParamSpec) → Except Unit (List AnomalyDetection)
  | [] => .ok []
  | p :: rest =>
    match lookup data p.1, lookup baseline p.1 with
    | some v, some bv =>
      if bv = 0 then .error ()
      else
        let trend := ((v - bv) / bv) * 100
        let here : List AnomalyDetection :=
          if |trend| > 20 then
            [⟨.sensor_drift, (if |trend| < 50 then .medium else .high), p.1, v,
              (bv * (8/10), bv * (12/10)), trend, trend_steps,
              (if |trend| > 50 then true else false), 80/100⟩]
          else []
        (trend_fold baseline data rest).map (fun r => here ++ r)
    | _, _ => trend_fold baseline data rest

/-- DocumentationAnomalyDetector._detect_trend_anomalies: on the first
call for a device the baseline is initialized to a copy of
current_data and no report is emitted; afterwards each parameter is
compared against its baseline. -/
def detect_trend_anomalies (baselines : List (String × List (String × ℚ)))
    (device_id : String) (spec : DeviceSpec) (data : List (String × ℚ)) :
    Except Unit (List AnomalyDetection × List (String × List (String × ℚ))) :=
  match lookup baselines device_id with
  | none => .ok ([], baselines ++ [(device_id, data)])
  | some baseline => (trend_fold baseline data spec.parameters).map (fun r => (r, baselines))

/-- DocumentationAnomalyDetector._detect_unusual_pattern. -/
def unusual_pattern (values : List ℚ) : Bool :=
  if values.length < 3 then false
  else
    let mean_val := values.sum / (values.length : ℚ)
    let variance := (values.map (fun x => (x - mean_val) ^ 2)).sum / (values.length : ℚ)
    if variance > mean_val * (1/10) then true
    else (values.zip values.tail).any (fun p => |p.2 - p.1| > mean_val * (2/10))

/-- The fixed troubleshooting list of the pattern strategy. -/
def pattern_steps : List String :=
  ["Check sensor stability", "Verify communication quality",
   "Look for environmental interference", "Test sensor response time"]

/-- DocumentationAnomalyDetector._detect_pattern_anomalies for one
device: the current reading is appended to the rolling history with
the current timestamp, the history is truncated to its last 10
entries, and (with at least 3 readings) each parameter series is
tested for unusual patterns.  Returns the reports and the new history. -/
def detect_pattern_anomalies (hist : List (Nat × List (String × ℚ))) (now : Nat)
    (spec : DeviceSpec) (data : List (String × ℚ)) :
    List AnomalyDetection × List (Nat × List (String × ℚ)) :=
  let h1 := hist ++ [(now, data)]
  let h2 := if h1.length > 10 then h1.drop (h1.length - 10) else h1
  let ads : List AnomalyDetection :=
    if h2.length < 3 then []
    else
      spec.parameters.flatMap (fun p =>
        match lookup data p.1 with
        | none => []
        | some v =>
          let values := h2.map (fun r => (lookup r.2 p.1).getD 0)
          if unusual_pattern values then
            [⟨.pattern_anomaly, .medium, p.1, v, p.2.normal_range, 0,
              pattern_steps, false, 75/100⟩]
          else [])
  (ads, h2)

/-- The troubleshooting list of the maintenance strategy (the first
step interpolates the task name with underscores replaced by spaces). -/
def maintenance_steps (mtype : String) : List String :=
  ["Schedule " ++ (mtype.replace "_" " ") ++ " immediately",
   "Check device performance", "Review maintenance logs", "Update maintenance schedule"]

/-- The schedule loop of _detect_maintenance_anomalies.  A zero
interval that is already due makes Python raise ZeroDivisionError in
the deviation computation, modelled as Except.error. -/
def maintenance_fold (days : Int) : List (String × Int) → Except Unit (List AnomalyDetection)
  | [] => .ok []
  | p :: rest =>
    if days ≥ p.2 then
      if p.2 = 0 then .error ()
      else
        let ad : AnomalyDetection :=
          ⟨.maintenance_overdue, (if days < p.2 * 2 then .medium else .high), "maintenance",
            (days : ℚ), ((0 : ℚ), (p.2 : ℚ)), ((days - p.2 : ℤ) : ℚ) / (p.2 : ℚ) * 100,
            maintenance_steps p.1, true, 90/100⟩
        (maintenance_fold days rest).map (fun r => ad :: r)
    else maintenance_fold days rest

/-- DocumentationAnomalyDetector._detect_maintenance_anomalies.
last_maintenance is the value of current_data.get("last_maintenance")
when it is a string (None and the empty string are falsy and skip the
strategy, as does an empty maintenance_schedule).  parse models
datetime.fromisoformat on the Z-normalized string, returning the date
as a day number or none on ValueError; a parse failure is caught and
yields no reports.  nowDate is datetime.now() as a day number, so
nowDate - parsed is days_since_maintenance. -/
def detect_maintenance_anomalies (parse : String → Option Int) (nowDate : Int)
    (spec : DeviceSpec) (lastMaint : Option String) :
    Except Unit (List AnomalyDetection) :=
  match lastMaint with
  | none => .ok []
  | some s =>
    if s = "" then .ok []
    else if spec.maintenance_schedule = [] then .ok []
    else
      match parse s with
      | none => .ok []
      | some d => maintenance_fold (nowDate - d) spec.maintenance_schedule

/-- The fixed troubleshooting list of the environmental strategy. -/
def environmental_steps : List String :=
  ["Check HVAC system operation", "Verify ventilation",
   "Monitor for condensation", "Adjust environmental controls"]

/-- DocumentationAnomalyDetector._detect_environmental_anomalies. -/
def detect_environmental_anomalies (data : List (String × ℚ)) : List AnomalyDetection :=
  match lookup data "temperature", lookup data "humidity" with
  | some t, some h =>
    if t > 30 ∧ h > 80 then
      [⟨.environmental_anomaly, .medium, "environmental", t * h / 100, (15, 25), 50,
        environmental_steps, false, 85/100⟩]
    else []
  | _, _ => []

/-- The result dict of LocalAIEngine.detect_anomalies as consumed by
_detect_ml_anomalies (is_anomaly, anomaly_score, affected_sensors,
confidence, with the .get defaults already applied). -/
structure MLResult where
  is_anomaly : Bool
  anomaly_score : ℚ
  affected_sensors : List String
  confidence : ℚ
deriving DecidableEq

/-- DocumentationAnomalyDetector._score_to_severity. -/
def score_to_severity (score : ℚ) : AnomalySeverity :=
  if score > 9/10 then .critical
  else if score > 7/10 then .high
  else if score > 5/10 then .medium
  else .low

/-- The fixed troubleshooting list of the ML strategy. -/
def ml_steps : List String :=
  ["Review sensor data patterns", "Check for environmental changes",
   "Verify sensor calibration", "Compare with historical data"]

/-- DocumentationAnomalyDetector._detect_ml_anomalies.  The call into
the AI engine is passed in as an Except value; its body has its own
try/except, so an engine failure yields no reports without
propagating. -/
def detect_ml_anomalies (mlRes : Except Unit MLResult) (data : List (String × ℚ)) :
    List AnomalyDetection :=
  match mlRes with
  | .error _ => []
  | .ok r =>
    if r.is_anomaly then
      r.affected_sensors.map (fun s =>
        ⟨.pattern_anomaly, score_to_severity r.anomaly_score, s, (lookup data s).getD 0,
          (0, 100), r.anomaly_score * 100, ml_steps,
          (if r.anomaly_score > 8/10 then true else false), r.confidence⟩)
    else []

/-- The mutable state of a DocumentationAnomalyDetector instance:
device_baselines, pattern_history (per device) and anomaly_history. -/
structure DetectorState where
  device_baselines : List (String × List (String × ℚ))
  pattern_history : List (String × List (Nat × List (String × ℚ)))
  anomaly_history : List AnomalyDetection
deriving DecidableEq

/-- DocumentationAnomalyDetector.detect_anomalies.  The six strategies
run inside one try block; an exception in any of them is caught by the
single handler, which returns [] — mutations made before the raise
(the baseline table and the pattern history) are kept, as in the
source.  Only the ML strategy contains its own handler (see
detect_ml_anomalies). -/
def detect_anomalies (parse : String → Option Int) (mlRes : Except Unit MLResult)
    (now : Nat) (nowDate : Int) (st : DetectorState) (device_id : String)
    (spec : DeviceSpec) (data : List (String × ℚ)) (lastMaint : Option String) :
    List AnomalyDetection × DetectorState :=
  let a1 := detect_range_anomalies spec data
  match detect_trend_anomalies st.device_baselines device_id spec data with
  | .error _ => ([], st)
  | .ok tr =>
    let st1 : DetectorState := { st with device_baselines := tr.2 }
    let pr := detect_pattern_anomalies ((lookup st1.pattern_history device_id).getD [])
      now spec data
    let st2 : DetectorState :=
      { st1 with pattern_history := update_assoc st1.pattern_history device_id pr.2 }
    match detect_maintenance_anomalies parse nowDate spec lastMaint with
    | .error _ => ([], st2)
    | .ok a4 =>
      let a5 := detect_environmental_anomalies data
      let a6 := detect_ml_anomalies mlRes data
      let all := a1 ++ tr.1 ++ pr.1 ++ a4 ++ a5 ++ a6
      (all, { st2 with anomaly_history := st2.anomaly_history ++ all })

/-! ## Cloud context service (src/cloud/context_service.py) -/

/-- DeviceFingerprint (fields read by the embedded paths: protocol,
port, vendor_id, model_name). -/
structure DeviceFingerprintM where
  protocol : String
  port : Nat
  vendor_id : Option String
  model_name : Option String
deriving DecidableEq

/-- The identification dict produced by
FreeLLMService._simulate_llm_identification (no error key is ever
set on this path, so identification.get("error") is always falsy). -/
structure DeviceIdentification where
  device_type : String
  manufacturer : String
  model : String
  confidence : ℚ
  reasoning : String
deriving DecidableEq

/-- FreeLLMService._simulate_llm_identification. -/
def simulate_llm_identification (fp : DeviceFingerprintM) : DeviceIdentification :=
  if fp.protocol = "BACnet" ∧ fp.port = 47808 then
    ⟨"hvac_controller", "Honeywell", "T6 Pro Smart Thermostat", 92/100,
      "BACnet/IP on standard port 47808, Honeywell vendor ID detected"⟩
  else if fp.protocol = "BACnet" ∧ fp.vendor_id = some "260" then
    ⟨"building_controller", "Johnson Controls", "Metasys NAE55", 88/100,
      "Johnson Controls vendor ID 260 with BACnet protocol"⟩
  else if fp.protocol = "REST" ∧ fp.port = 8000 then
    ⟨"environmental_sensor", "Sensirion", "SHT40 Temperature/Humidity Sensor", 85/100,
      "REST API on port 8000, environmental sensor endpoints detected"⟩
  else
    ⟨"unknown_device", "unknown", "unknown", 1/10,
      "Unable to identify device from fingerprint"⟩

/-- One entry of VectorDatabase.device_docs.  The nested documentation
dict is flattened; the parameter sub-dicts are kept as their name
list, since no embedded path reads inside them. -/
structure DeviceDoc where
  device_type : String
  manufacturer : String
  model : String
  protocol : String
  parameters : List String
  error_codes : List (String × String)
  troubleshooting : List String
  maintenance : List (String × Int)
deriving DecidableEq

/-- DeviceContext as assembled by CloudContextService.get_device_context
(protocol_spec, the whole documentation dict, is represented by the
same flattened fields). -/
structure DeviceContextM where
  device_id : String
  device_type : String
  manufacturer : String
  model : String
  parameters : List String
  error_codes : List (String × String)
  troubleshooting_guide : List String
  maintenance_schedule : List (String × Int)
  vector_similarity : ℚ
  confidence : ℚ
deriving DecidableEq

/-- The text embedded for a stored document
(VectorDatabase._generate_embedding input). -/
def doc_text (d : DeviceDoc) : String :=
  d.manufacturer ++ " " ++ d.model ++ " " ++ d.device_type ++ " " ++ d.protocol

/-- np.dot over two equal-length vectors. -/
def dot (a b : List ℚ) : ℚ := ((a.zip b).map (fun p => p.1 * p.2)).sum

/-- Stable descending insertion by similarity, the effect of
similarities.sort(key=lambda x: x[1], reverse=True) (Python sort is
stable; reverse=True flips the comparison, not the list). -/
def insert_desc (x : String × ℚ) : List (String × ℚ) → List (String × ℚ)
  | [] => [x]
  | y :: ys => if x.2 > y.2 then x :: y :: ys else y :: insert_desc x ys

/-- Stable descending sort by similarity. -/
def sort_desc : List (String × ℚ) → List (String × ℚ)
  | [] => []
  | x :: xs => insert_desc x (sort_desc xs)

/-- VectorDatabase.search_similar_devices: cosine similarity
dot(q, e) / (norm(q) * norm(e)) of the query embedding against every
stored embedding, sorted descending, top_k kept.  normF stands for
np.linalg.norm (library code). -/
def search_similar_devices (normF : List ℚ → ℚ) (query : List ℚ)
    (embs : List (String × List ℚ)) (topK : Nat) : List (String × ℚ) :=
  let sims := embs.map (fun p => (p.1, dot query p.2 / (normF query * normF p.2)))
  (sort_desc sims).take topK

/-- str(x) for an optional field, as Python f-strings print None. -/
def py_show_opt : Option String → String
  | none => "None"
  | some s => s

/-- CloudContextService._generate_cache_key builds
f"{protocol}_{port}_{vendor_id}_{model_name}" and md5-hashes it; the
hash (library code, injective on the keys in play) is dropped and the
key text itself is used. -/
def cache_key (fp : DeviceFingerprintM) : String :=
  fp.protocol ++ "_" ++ toString fp.port ++ "_" ++ py_show_opt fp.vendor_id ++ "_" ++
    py_show_opt fp.model_name

/-- The query text built in step 2 of get_device_context from the
identification result. -/
def query_text_of (fp : DeviceFingerprintM) : String :=
  let ident := simulate_llm_identification fp
  ident.manufacturer ++ " " ++ ident.model ++ " " ++ ident.device_type

/-- The stored embeddings: embedF of each document text
(VectorDatabase._initialize_sample_docs, last loop). -/
def stored_embeddings (embedF : String → List ℚ) (db : List (String × DeviceDoc)) :
    List (String × List ℚ) :=
  db.map (fun p => (p.1, embedF (doc_text p.2)))

/-- CloudContextService.get_device_context.  embedF stands for the
md5-based _generate_embedding / _generate_query_embedding pair
(library hashing); the stored vectors are embedF of each document
text, the query vector is embedF of the identification-derived query
text, exactly as in the source.  Returns the result and the updated
request cache.  Note no similarity threshold appears anywhere on this
path: the top-1 match is accepted whatever its similarity. -/
def get_device_context (embedF : String → List ℚ) (normF : List ℚ → ℚ)
    (db : List (String × DeviceDoc)) (cache : List (String × DeviceContextM))
    (fp : DeviceFingerprintM) : Option DeviceContextM × List (String × DeviceContextM) :=
  let key := cache_key fp
  match lookup cache key with
  | some c => (some c, cache)
  | none =>
    let ident := simulate_llm_identification fp
    let query_embedding := embedF (query_text_of fp)
    let embs := stored_embeddings embedF db
    match search_similar_devices normF query_embedding embs 1 with
    | [] => (none, cache)
    | top :: _ =>
      match lookup db top.1 with
      | none => (none, cache)
      | some doc =>
        let ctx : DeviceContextM :=
          ⟨top.1, doc.device_type, doc.manufacturer, doc.model, doc.parameters,
            doc.error_codes, doc.troubleshooting, doc.maintenance, top.2, ident.confidence⟩
        (some ctx, cache ++ [(key, ctx)])

/-! ## PDF extraction (src/pdf/pdf_parser.py) -/

/-- DeviceErrorCode. -/
structure DeviceErrorCode where
  code : String
  description : String
deriving DecidableEq

/-- The five hard-coded error codes substituted when the regex sweep
finds none ("If no specific error codes found, create common ones"). -/
def default_error_codes : List DeviceErrorCode :=
  [⟨"E001", "Communication timeout - Check network connectivity"⟩,
   ⟨"E002", "Sensor reading out of range - Verify sensor calibration"⟩,
   ⟨"E003", "Device not responding - Check power and connections"⟩,
   ⟨"E004", "Configuration error - Verify device settings"⟩,
   ⟨"E005", "Maintenance required - Schedule device maintenance"⟩]

/-- PDFParser._extract_error_codes.  matches holds the (group 1,
group 2) pairs produced by the three error/fault/code regexes over the
document text, in order (the regex engine is library code); the
surrounding logic is from the source: strip each group, and if nothing
matched substitute the five default codes. -/
def extract_error_codes (ms : List (String × String)) : List DeviceErrorCode :=
  let codes := ms.map (fun m => (⟨m.1.trim, m.2.trim⟩ : DeviceErrorCode))
  if codes = [] then default_error_codes else codes

/-- The five generic troubleshooting steps substituted when the regex
sweep finds none. -/
def default_troubleshooting : List String :=
  ["Check device power and connections", "Verify network connectivity",
   "Check sensor calibration and placement", "Review device configuration settings",
   "Contact manufacturer support if issues persist"]

/-- PDFParser._extract_troubleshooting over the regex group-1 matches. -/
def extract_troubleshooting (ms : List String) : List String :=
  let steps := ms.map (fun m => m.trim)
  if steps = [] then default_troubleshooting else steps

/-- Substring test: Python (pat in text). -/
def contains_sub (text pat : String) : Bool := (text.splitOn pat).length ≥ 2

/-- DeviceParameter (fields produced by _extract_parameters). -/
structure DeviceParameter where
  name : String
  type : String
  units : Option String
  range_min : Option ℚ
  range_max : Option ℚ
  description : Option String
  object_type : Option String
  object_instance : Option Nat
deriving DecidableEq

/-- PDFParser._extract_parameters.  bacnet_matches and rest_matches
hold the regex results (library engine); text is the document text,
lower-cased for the keyword fallback exactly as in the source.  When
no pattern matched, generic parameters with invented wide ranges are
created for each of the keywords temperature / humidity / pressure
present anywhere in the text. -/
def extract_parameters (bacnet_matches : List (String × Nat × Option String))
    (rest_matches : List String) (text : String) : List DeviceParameter :=
  let ps1 := bacnet_matches.map (fun m =>
    (⟨(match m.2.2 with | some nm => nm | none => "Parameter_" ++ toString m.2.1),
      (if m.1 = "AI" then "analog_input" else "unknown"),
      none, none, none, none, some m.1, some m.2.1⟩ : DeviceParameter))
  let ps2 := rest_matches.map (fun m =>
    (⟨"API_" ++ m.trim, "rest_endpoint", none, none, none,
      some ("REST API endpoint: " ++ m.trim), none, none⟩ : DeviceParameter))
  let ps := ps1 ++ ps2
  if ps = [] then
    (if contains_sub text.toLower "temperature" then
      [(⟨"temperature", "analog_input", some "celsius", some (-40), some 85,
        some "Temperature reading", none, none⟩ : DeviceParameter)] else []) ++
    (if contains_sub text.toLower "humidity" then
      [(⟨"humidity", "analog_input", some "percent", some 0, some 100,
        some "Relative humidity reading", none, none⟩ : DeviceParameter)] else []) ++
    (if contains_sub text.toLower "pressure" then
      [(⟨"pressure", "analog_input", some "pa", some 0, some 100000,
        some "Pressure reading", none, none⟩ : DeviceParameter)] else [])
  else ps

/-- The maintenance dict returned by _extract_maintenance_info:
schedule, the intervals sub-dict, and the requirements list. -/
structure MaintenanceInfo where
  schedule : String
  intervals : List (String × String)
  requirements : List String
deriving DecidableEq

/-- PDFParser._extract_maintenance_info.  The function starts from a
hard-coded dict whose intervals are unit-bearing strings and only ever
appends regex matches to the requirements list; the intervals are
never touched, and no conversion to days exists anywhere in the
parser. -/
def extract_maintenance_info (ms : List String) : MaintenanceInfo :=
  { schedule := "monthly",
    intervals := [("calibration", "6 months"), ("cleaning", "3 months"),
      ("replacement", "2 years")],
    requirements := ["Regular calibration check", "Sensor cleaning",
      "Connection inspection"] ++ ms.map (fun m => m.trim) }

/-! ## BACnet request generation (src/mcp_server.py) -/

/-- The object_info dict produced by _parse_bacnet_query. -/
structure BacnetObjectInfo where
  object_type : String
  object_instance : Nat
  property : String
deriving DecidableEq

/-- _generate_read_property_request: the byte frame is a fixed
constant — BVLC header, 8 reserved bytes, NPDU, then the APDU bytes
[0x00, 0x0c] (Confirmed-REQ, ReadProperty) and [0x01, 0x00] commented
"Invoke ID, Service Choice".  The object_info argument is never read
and no counter of any kind is consulted: byte 18, the invoke id, is
always 0x01. -/
def generate_read_property_request (_info : BacnetObjectInfo) : List Nat :=
  [0x81, 0x0a, 0x00, 0x0c,
   0x00, 0x00, 0x00, 0x00,
   0x00, 0x00, 0x00, 0x00,
   0x01, 0x20, 0xff, 0xff,
   0x00, 0x0c,
   0x01, 0x00]

/-- The byte offset of the invoke id within the generated frame. -/
def invoke_id_offset : Nat := 18

/-! ## Concrete fixtures used by the counterexamples and witnesses -/

/-- The temperature ParamSpec of the demo device_spec in the detector
module (normal (18,26), warning (15,30), error (10,40)). -/
def exParamSpec : ParamSpec :=
  ⟨"Room Temperature", "°C", (18, 26), (15, 30), (10, 40),
   ["Check temperature sensor calibration", "Verify HVAC system is running",
    "Check for air flow obstructions"]⟩

/-- A device_spec with the single temperature parameter and the demo
maintenance schedule. -/
def exSpecC1 : DeviceSpec :=
  ⟨[("temperature", exParamSpec)], [("sensor_calibration", 90), ("filter_replacement", 30)]⟩

/-- A device_spec with no parameters and an overdue-prone schedule. -/
def exSpecC10 : DeviceSpec := ⟨[], [("sensor_calibration", 90)]⟩

/-- A date parser that fails on every string (models
datetime.fromisoformat raising on a malformed date). -/
def exParseNone : String → Option Int := fun _ => none

/-- An engine result reporting no anomaly. -/
def exMLOk : Except Unit MLResult := .ok ⟨false, 1/2, [], 7/10⟩

/-- A fresh detector state. -/
def exStZero : DetectorState := ⟨[], [], []⟩

/-- First reading: temperature 0 (below the error range). -/
def exData1 : List (String × ℚ) := [("temperature", 0)]

/-- Second reading: temperature 42 (above the error range). -/
def exData2 : List (String × ℚ) := [("temperature", 42)]

/-- The detector state after the first call: the baseline for
hvac_001 now holds temperature 0. -/
def exStAfterFirst : DetectorState :=
  (detect_anomalies exParseNone exMLOk 0 0 exStZero "hvac_001" exSpecC1 exData1 none).2

/-- A detector state whose hvac_001 pattern history holds two ordered
readings. -/
def exStC9 : DetectorState :=
  ⟨[], [("hvac_001", [(0, [("temperature", 20)]), (1, [("temperature", 21)])])], []⟩

/-- The Honeywell sample document of VectorDatabase (fields kept to
what the embedded service reads). -/
def exDoc : DeviceDoc :=
  ⟨"hvac_controller", "Honeywell", "T6 Pro Smart Thermostat", "BACnet",
   ["room_temperature", "setpoint", "fan_mode"],
   [("E001", "Temperature sensor failure - Check sensor connection and calibration")],
   ["If temperature reading is incorrect, check sensor placement and calibration"],
   [("sensor_calibration", 90), ("filter_replacement", 30)]⟩

/-- A database holding the one sample document. -/
def exDb : List (String × DeviceDoc) := [("honeywell_t6_pro", exDoc)]

/-- A fingerprint the simulated identifier cannot classify (Modbus on
port 502), yielding the unknown identification with confidence 0.1. -/
def exFp : DeviceFingerprintM := ⟨"Modbus", 502, none, none⟩

/-- A stand-in embedding function making the stored document vector
orthogonal to the query vector, so the top-1 cosine similarity is
exactly 0. -/
def exEmbed : String → List ℚ := fun s =>
  if s = "unknown unknown unknown_device" then [1, 0] else [0, 1]

/-- A stand-in norm function (the vectors in play are unit vectors). -/
def exNorm : List ℚ → ℚ := fun _ => 1

/-- The context the service returns for the fixture database, carrying
similarity 0. -/
def exCtx : DeviceContextM :=
  ⟨"honeywell_t6_pro", "hvac_controller", "Honeywell", "T6 Pro Smart Thermostat",
   ["room_temperature", "setpoint", "fan_mode"],
   [("E001", "Temperature sensor failure - Check sensor connection and calibration")],
   ["If temperature reading is incorrect, check sensor placement and calibration"],
   [("sensor_calibration", 90), ("filter_replacement", 30)], 0, 1/10⟩

/-- Two distinct parsed BACnet queries (temperature and humidity). -/
def exObjInfo1 : BacnetObjectInfo := ⟨"AnalogInput", 1, "PresentValue"⟩

/-- See exObjInfo1. -/
def exObjInfo2 : BacnetObjectInfo := ⟨"AnalogInput", 2, "PresentValue"⟩

/-- The rolling-history invariant of claim C9: at most ten entries,
timestamps non-decreasing in buffer order. -/
def history_ok (h : List (Nat × List (String × ℚ))) : Prop :=
  h.length ≤ 10 ∧ h.Pairwise (fun a b => a.1 ≤ b.1)

instance history_ok_decidable (h : List (Nat × List (String × ℚ))) :
    Decidable (history_ok h) := by unfold history_ok; infer_instance

/-! ## Helper lemmas -/

theorem lookup_mem {α : Type} {l : List (String × α)} {k : String} {v : α}
    (h : lookup l k = some v) : (k, v) ∈ l := by
  induction l with
  | nil => simp [lookup] at h
  | cons p rest ih =>
    rw [lookup] at h
    split at h
    · rename_i hp
      obtain ⟨a, b⟩ := p
      obtain rfl : a = k := hp
      obtain rfl : b = v := by injection h
      exact List.mem_cons_self _ _
    · exact List.mem_cons_of_mem _ (ih h)

theorem mem_update_assoc {α : Type} {l : List (String × α)} {k : String} {v : α}
    {p : String × α} (h : p ∈ update_assoc l k v) : p = (k, v) ∨ p ∈ l := by
  induction l with
  | nil =>
    rw [update_assoc] at h
    simp at h
    exact Or.inl h
  | cons q rest ih =>
    rw [update_assoc] at h
    split at h
    · rcases List.mem_cons.mp h with h1 | h1
      · exact Or.inl h1
      · exact Or.inr (List.mem_cons_of_mem _ h1)
    · rcases List.mem_cons.mp h with h1 | h1
      · exact Or.inr (h1 ▸ List.mem_cons_self _ _)
      · rcases ih h1 with h2 | h2
        · exact Or.inl h2
        · exact Or.inr (List.mem_cons_of_mem _ h2)

/-! ## Claim theorems -/

/-- C6 (code_bug): at the failing input — a Read Input Registers
request (function code 0x04) for start address 30008, quantity 2,
which spans beyond the declared map — the simulator produces the MBAP
header followed by the single byte 0x82, i.e. exception_code | 0x80
with no function-code byte at all.  The claimed frame shape (function
code with high bit set, 0x84, followed by a separate exception byte
0x02) does not occur: the frame has 8 bytes, not 9, the byte 0x84
appears nowhere in it, and its own MBAP length field (3) promises one
more byte after the unit id than the frame carries (2 bytes follow the
length field). -/
theorem c6_exception_frame_shape :
    read_input_registers exModbusReq 7 = [0, 7, 0, 0, 0, 3, 1, 130] ∧
    (read_input_registers exModbusReq 7).length = 8 ∧
    (read_input_registers exModbusReq 7).getD 5 0 = 3 ∧
    ((read_input_registers exModbusReq 7).drop 6).length = 2 ∧
    ¬ (132 ∈ read_input_registers exModbusReq 7) ∧
    read_input_registers exModbusReq 7 ≠ [0, 7, 0, 0, 0, 3, 1, 132, 2] := by
  decide

/-- C7 (counterexample): the encode/decode pair truncates instead of
rounding.  For f = 22.567 (inside the declared (0, 100) range of the
temperature registers), encoding scales by 100 and truncates with
int(), giving registers holding 2256, and decoding yields 22.56,
whereas round(f, 2) = 22.57. -/
theorem c7_truncation_not_rounding :
    modbus_decode_float (modbus_encode_float (22567/1000)) = 2256/100 ∧
    round2 (22567/1000) = 2257/100 ∧
    modbus_decode_float (modbus_encode_float (22567/1000)) ≠ round2 (22567/1000) := by
  with_unfolding_all decide

/-- C8 (counterexample): _generate_read_property_request emits a fixed
byte frame whatever the parsed object is; the invoke id byte (offset
18) is the constant 0x01 for every generated confirmed request, so a
second request on the same session carries an invoke id equal to — not
strictly greater than — the previous one. -/
theorem c8_constant_invoke_id :
    (generate_read_property_request exObjInfo1).getD invoke_id_offset 0 = 1 ∧
    (generate_read_property_request exObjInfo2).getD invoke_id_offset 0 = 1 ∧
    generate_read_property_request exObjInfo2 = generate_read_property_request exObjInfo1 ∧
    ¬ ((generate_read_property_request exObjInfo2).getD invoke_id_offset 0 >
        (generate_read_property_request exObjInfo1).getD invoke_id_offset 0) := by
  decide

/-- C8 (amended): every generated ReadProperty request is the same
constant frame with invoke id 1; there is no per-session counter, so
consecutive confirmed requests carry equal invoke ids (non-decreasing,
never strictly increasing), and no client-side Modbus transaction-id
generation exists in the repository at all. -/
theorem c8_invoke_id_amended (a b : BacnetObjectInfo) :
    generate_read_property_request a = generate_read_property_request b ∧
    (generate_read_property_request a).getD invoke_id_offset 0 = 1 :=
  ⟨rfl, rfl⟩

/-- C4 (code_bug): at the failing input — a document over which the
error/fault/code and troubleshooting regex sweeps find nothing — the
parser fabricates the five default error codes E001..E005 and the five
generic troubleshooting steps rather than leaving the fields empty;
and a document whose text merely mentions the word temperature (with
no parameter table at all) receives an invented temperature parameter
with an invented range (-40, 85). -/
theorem c4_fabricated_defaults :
    extract_error_codes [] = default_error_codes ∧
    extract_error_codes [] ≠ [] ∧
    extract_troubleshooting [] = default_troubleshooting ∧
    extract_troubleshooting [] ≠ [] ∧
    extract_parameters [] [] "Temperature sensor manual" =
      [⟨"temperature", "analog_input", some "celsius", some (-40), some 85,
        some "Temperature reading", none, none⟩] := by
  with_unfolding_all decide

/-- C5 (code_bug): _extract_maintenance_info returns the fixed
intervals dict whose values are the unit-bearing strings "6 months",
"3 months", "2 years"; none of them is a plain number of days, and the
parser contains no normalization to days, so the maintenance strategy
(which compares days_since_last_maintenance numerically against the
interval) cannot consume them. -/
theorem c5_interval_strings_not_days :
    (extract_maintenance_info []).intervals =
      [("calibration", "6 months"), ("cleaning", "3 months"), ("replacement", "2 years")] ∧
    ((extract_maintenance_info []).intervals.all (fun p => (p.2.toNat?).isNone)) = true := by
  with_unfolding_all decide

/-- C7 (amended): for every non-negative f below the representable
bound, decoding the two-register encoding yields the truncation of f
to two decimal places — int(f * 100) / 100, not round(f, 2) — and the
round trip is exact precisely on inputs that already have at most two
decimal places (f * 100 integral), which covers every value the
simulator itself stores in its register map. -/
theorem c7_roundtrip_amended (f : ℚ) (h0 : 0 ≤ f) (hb : f * 100 < 4294967296) :
    modbus_decode_float (modbus_encode_float f) = ((pyTrunc (f * 100) : ℤ) : ℚ) / 100 ∧
    ((f * 100).den = 1 → modbus_decode_float (modbus_encode_float f) = f) := by
  have h100 : (0:ℚ) ≤ f * 100 := by positivity
  have htr : pyTrunc (f * 100) = ⌊f * 100⌋ := if_pos h100
  have hn0 : 0 ≤ ⌊f * 100⌋ := Int.floor_nonneg.mpr h100
  have hnlt : ⌊f * 100⌋ < 4294967296 := by
    have h1 : ((⌊f * 100⌋ : ℤ) : ℚ) ≤ f * 100 := Int.floor_le _
    have h2 : ((⌊f * 100⌋ : ℤ) : ℚ) < 4294967296 := lt_of_le_of_lt h1 hb
    exact_mod_cast h2
  have key : (((⌊f * 100⌋ : ℤ) / 65536 % 65536).toNat * 65536 +
      ((⌊f * 100⌋ : ℤ) % 65536).toNat : ℕ) = (⌊f * 100⌋ : ℤ).toNat := by
    omega
  have hcast : (((⌊f * 100⌋ : ℤ).toNat : ℕ) : ℚ) = ((⌊f * 100⌋ : ℤ) : ℚ) := by
    exact_mod_cast congrArg (fun z : ℤ => (z : ℚ)) (Int.toNat_of_nonneg hn0)
  have hdec : modbus_decode_float (modbus_encode_float f) = (((⌊f * 100⌋ : ℤ) : ℚ)) / 100 := by
    unfold modbus_decode_float modbus_encode_float
    rw [htr]
    rw [key]
    rw [hcast]
  refine ⟨by rw [hdec, htr], ?_⟩
  intro hden
  obtain ⟨m, hm⟩ : ∃ m : ℤ, ((m : ℤ) : ℚ) = f * 100 :=
    ⟨(f * 100).num, by rw [← Rat.den_eq_one_iff]; exact hden⟩
  have hfl2 : ⌊f * 100⌋ = m := by rw [← hm, Int.floor_intCast]
  rw [hdec, hfl2, hm]
  ring

/-- C7 witness: the register value 22.5 (Temperature_Sensor_1) has two
decimal places and round-trips exactly. -/
theorem c7_roundtrip_witness :
    (0:ℚ) ≤ 45/2 ∧ (45/2 : ℚ) * 100 < 4294967296 ∧ ((45/2 : ℚ) * 100).den = 1 ∧
    modbus_decode_float (modbus_encode_float (45/2)) = 45/2 :=
  ⟨by norm_num, by norm_num, by with_unfolding_all decide,
   (c7_roundtrip_amended (45/2) (by norm_num) (by norm_num)).2 (by with_unfolding_all decide)⟩

/-- C10: when the current reading carries no last_maintenance value
(None, or Python-falsy empty string), or the value does not parse as a
date, the maintenance strategy returns no reports at all — for every
schedule and every current date, however overdue — and does not raise. -/
theorem c10_missing_maintenance_date_skips (parse : String → Option Int) (nowDate : Int)
    (spec : DeviceSpec) (lastMaint : Option String)
    (h : lastMaint = none ∨ lastMaint = some "" ∨
      ∃ s, lastMaint = some s ∧ parse s = none) :
    detect_maintenance_anomalies parse nowDate spec lastMaint = .ok [] := by
  rcases h with h | h | ⟨s, hs, hp⟩
  · subst h; rfl
  · subst h; rfl
  · subst hs
    simp only [detect_maintenance_anomalies]
    split_ifs with h1 h2
    · rfl
    · rfl
    · rw [hp]

/-- C3: for a parameter whose ranges are strictly nested (error strictly
around warning, warning around a non-degenerate normal range), the
range strategy emits exactly one critical report (confidence 0.95,
maintenance required) when the value is strictly outside the error
range; exactly one medium report (confidence 0.85, no maintenance)
when it is within the error range but strictly outside the warning
range; and no report when it is within the warning range.  In
particular a value exactly on a warning-range boundary yields no
report, a value exactly on an error-range boundary yields the medium
report, and deviation_pct is |value - center| / width * 100 of the
normal range. -/
theorem c3_range_strategy_characterization (n : String) (ps : ParamSpec)
    (sched : List (String × Int)) (v : ℚ)
    (hn : ps.normal_range.1 < ps.normal_range.2)
    (hw1 : ps.warning_range.1 ≤ ps.normal_range.1)
    (hw2 : ps.normal_range.2 ≤ ps.warning_range.2)
    (he1 : ps.error_range.1 < ps.warning_range.1)
    (he2 : ps.warning_range.2 < ps.error_range.2) :
    ((v < ps.error_range.1 ∨ ps.error_range.2 < v) →
      detect_range_anomalies ⟨[(n, ps)], sched⟩ [(n, v)] =
        [⟨.value_out_of_range, .critical, n, v, ps.normal_range,
          |v - (ps.normal_range.1 + ps.normal_range.2) / 2| /
            (ps.normal_range.2 - ps.normal_range.1) * 100,
          ps.troubleshooting, true, 95/100⟩]) ∧
    ((ps.error_range.1 ≤ v ∧ v ≤ ps.error_range.2 ∧
        (v < ps.warning_range.1 ∨ ps.warning_range.2 < v)) →
      detect_range_anomalies ⟨[(n, ps)], sched⟩ [(n, v)] =
        [⟨.value_out_of_range, .medium, n, v, ps.normal_range,
          |v - (ps.normal_range.1 + ps.normal_range.2) / 2| /
            (ps.normal_range.2 - ps.normal_range.1) * 100,
          ps.troubleshooting, false, 85/100⟩]) ∧
    ((ps.warning_range.1 ≤ v ∧ v ≤ ps.warning_range.2) →
      detect_range_anomalies ⟨[(n, ps)], sched⟩ [(n, v)] = []) ∧
    ((v = ps.warning_range.1 ∨ v = ps.warning_range.2) →
      detect_range_anomalies ⟨[(n, ps)], sched⟩ [(n, v)] = []) ∧
    ((v = ps.error_range.1 ∨ v = ps.error_range.2) →
      detect_range_anomalies ⟨[(n, ps)], sched⟩ [(n, v)] =
        [⟨.value_out_of_range, .medium, n, v, ps.normal_range,
          |v - (ps.normal_range.1 + ps.normal_range.2) / 2| /
            (ps.normal_range.2 - ps.normal_range.1) * 100,
          ps.troubleshooting, false, 85/100⟩]) := by
  have hr : detect_range_anomalies ⟨[(n, ps)], sched⟩ [(n, v)] = range_check n ps v := by
    simp [detect_range_anomalies, lookup]
  have hdev : calculate_deviation v ps.normal_range =
      |v - (ps.normal_range.1 + ps.normal_range.2) / 2| /
        (ps.normal_range.2 - ps.normal_range.1) * 100 := by
    unfold calculate_deviation
    rw [if_neg (by intro h; linarith)]
  have hcrit : (v < ps.error_range.1 ∨ ps.error_range.2 < v) →
      detect_range_anomalies ⟨[(n, ps)], sched⟩ [(n, v)] =
        [⟨.value_out_of_range, .critical, n, v, ps.normal_range,
          |v - (ps.normal_range.1 + ps.normal_range.2) / 2| /
            (ps.normal_range.2 - ps.normal_range.1) * 100,
          ps.troubleshooting, true, 95/100⟩] := by
    intro h
    rw [hr]
    unfold range_check
    rw [if_pos h, hdev]
  have hmed : (ps.error_range.1 ≤ v ∧ v ≤ ps.error_range.2 ∧
      (v < ps.warning_range.1 ∨ ps.warning_range.2 < v)) →
      detect_range_anomalies ⟨[(n, ps)], sched⟩ [(n, v)] =
        [⟨.value_out_of_range, .medium, n, v, ps.normal_range,
          |v - (ps.normal_range.1 + ps.normal_range.2) / 2| /
            (ps.normal_range.2 - ps.normal_range.1) * 100,
          ps.troubleshooting, false, 85/100⟩] := by
    rintro ⟨h1, h2, h3⟩
    rw [hr]
    unfold range_check
    rw [if_neg (by rintro (h | h) <;> linarith), if_pos h3, hdev]
  have hnone : (ps.warning_range.1 ≤ v ∧ v ≤ ps.warning_range.2) →
      detect_range_anomalies ⟨[(n, ps)], sched⟩ [(n, v)] = [] := by
    rintro ⟨h1, h2⟩
    rw [hr]
    unfold range_check
    rw [if_neg (by rintro (h | h) <;> linarith), if_neg (by rintro (h | h) <;> linarith)]
  refine ⟨hcrit, hmed, hnone, ?_, ?_⟩
  · rintro (h | h) <;> subst h
    · exact hnone ⟨le_refl _, by linarith⟩
    · exact hnone ⟨by linarith, le_refl _⟩
  · rintro (h | h) <;> subst h
    · exact hmed ⟨le_refl _, by linarith, Or.inl he1⟩
    · exact hmed ⟨by linarith, le_refl _, Or.inr he2⟩

/-- C3 witness: the demo temperature parameter (normal (18,26),
warning (15,30), error (10,40)) at value 42 — strictly outside the
error range — yields exactly the critical report with confidence 0.95,
maintenance required, and deviation |42 - 22| / 8 * 100. -/
theorem c3_range_strategy_witness :
    (exParamSpec.normal_range.1 < exParamSpec.normal_range.2 ∧
     exParamSpec.warning_range.1 ≤ exParamSpec.normal_range.1 ∧
     exParamSpec.normal_range.2 ≤ exParamSpec.warning_range.2 ∧
     exParamSpec.error_range.1 < exParamSpec.warning_range.1 ∧
     exParamSpec.warning_range.2 < exParamSpec.error_range.2 ∧
     ((42 : ℚ) < exParamSpec.error_range.1 ∨ exParamSpec.error_range.2 < (42 : ℚ))) ∧
    detect_range_anomalies ⟨[("temperature", exParamSpec)], []⟩ [("temperature", (42 : ℚ))] =
      [⟨.value_out_of_range, .critical, "temperature", 42, exParamSpec.normal_range,
        |(42 : ℚ) - (exParamSpec.normal_range.1 + exParamSpec.normal_range.2) / 2| /
          (exParamSpec.normal_range.2 - exParamSpec.normal_range.1) * 100,
        exParamSpec.troubleshooting, true, 95/100⟩] :=
  ⟨⟨by with_unfolding_all decide, by with_unfolding_all decide, by with_unfolding_all decide,
    by with_unfolding_all decide, by with_unfolding_all decide,
    Or.inr (by with_unfolding_all decide)⟩,
   (c3_range_strategy_characterization "temperature" exParamSpec [] 42
      (by with_unfolding_all decide) (by with_unfolding_all decide)
      (by with_unfolding_all decide) (by with_unfolding_all decide)
      (by with_unfolding_all decide)).1
     (Or.inr (by with_unfolding_all decide))⟩

/-- C1 (counterexample): a failure in one strategy does suppress the
others.  A first reading of temperature 0 initializes the baseline;
on the second reading (temperature 42) the range strategy produces a
critical report, but the trend strategy then divides by the zero
baseline and raises, the single catch-all handler of detect_anomalies
returns [], and the range report is lost. -/
theorem c1_trend_failure_suppresses_range_report :
    (detect_anomalies exParseNone exMLOk 1 0 exStAfterFirst "hvac_001" exSpecC1
      exData2 none).1 = [] ∧
    detect_range_anomalies exSpecC1 exData2 ≠ [] ∧
    detect_trend_anomalies exStAfterFirst.device_baselines "hvac_001" exSpecC1 exData2 =
      .error () := by
  with_unfolding_all decide

/-- C1 (amended): the six strategies run inside one try block, so an
exception in any of the first five suppresses every report of that
call (detect_anomalies returns []); only the sixth, ML-based strategy
has its own handler, so an ML engine failure drops only its own
reports while the other five are still returned. -/
theorem c1_failure_isolation_amended (parse : String → Option Int) (now : Nat)
    (nowDate : Int) (st : DetectorState) (device_id : String) (spec : DeviceSpec)
    (data : List (String × ℚ)) (lastMaint : Option String)
    (a2 : List AnomalyDetection) (bl : List (String × List (String × ℚ)))
    (a4 : List AnomalyDetection) :
    (∀ mlRes, detect_trend_anomalies st.device_baselines device_id spec data = .error () →
      (detect_anomalies parse mlRes now nowDate st device_id spec data lastMaint).1 = []) ∧
    (detect_trend_anomalies st.device_baselines device_id spec data = .ok (a2, bl) →
      detect_maintenance_anomalies parse nowDate spec lastMaint = .ok a4 →
      (detect_anomalies parse (.error ()) now nowDate st device_id spec data lastMaint).1 =
        detect_range_anomalies spec data ++ a2 ++
        (detect_pattern_anomalies ((lookup st.pattern_history device_id).getD [])
          now spec data).1 ++ a4 ++ detect_environmental_anomalies data) := by
  constructor
  · intro mlRes herr
    unfold detect_anomalies
    rw [herr]
  · intro htr hm
    unfold detect_anomalies
    rw [htr]
    dsimp only
    rw [hm]
    dsimp only [detect_ml_anomalies]
    rw [List.append_nil]

/-- C1 witness: the amended suppression statement applied to the
concrete two-call scenario of the counterexample. -/
theorem c1_failure_isolation_witness :
    detect_trend_anomalies exStAfterFirst.device_baselines "hvac_001" exSpecC1 exData2 =
      .error () ∧
    (detect_anomalies exParseNone exMLOk 1 0 exStAfterFirst "hvac_001" exSpecC1
      exData2 none).1 = [] :=
  ⟨by with_unfolding_all decide,
   (c1_failure_isolation_amended exParseNone 1 0 exStAfterFirst "hvac_001" exSpecC1
      exData2 none [] [] []).1 exMLOk (by with_unfolding_all decide)⟩

/-- C2 (counterexample): the resolver returns a descriptor even when
the top-1 cosine similarity is exactly 0 (orthogonal embeddings):
there is no acceptance threshold anywhere on the path, so a similarity
below any configurable positive threshold still yields a descriptor
rather than an unknown result. -/
theorem c2_descriptor_returned_at_zero_similarity :
    (get_device_context exEmbed exNorm exDb [] exFp).1 = some exCtx ∧
    exCtx.vector_similarity = 0 ∧
    search_similar_devices exNorm (exEmbed (query_text_of exFp))
      (stored_embeddings exEmbed exDb) 1 = [("honeywell_t6_pro", 0)] := by
  with_unfolding_all decide

/-- C2 (amended): the resolver applies no similarity threshold at all:
whenever the cache misses, the index is non-empty (the search returns
a top-1 entry) and the matched id has a stored document, the
descriptor is returned carrying that similarity — whatever the
similarity value, including 0.  An unknown result (None) arises only
from an empty index or a missing document, never from low similarity. -/
theorem c2_no_threshold_amended (embedF : String → List ℚ) (normF : List ℚ → ℚ)
    (db : List (String × DeviceDoc)) (fp : DeviceFingerprintM)
    (did : String) (sim : ℚ) (rest : List (String × ℚ)) (doc : DeviceDoc)
    (hsearch : search_similar_devices normF (embedF (query_text_of fp))
      (stored_embeddings embedF db) 1 = (did, sim) :: rest)
    (hdoc : lookup db did = some doc) :
    (get_device_context embedF normF db [] fp).1 =
      some ⟨did, doc.device_type, doc.manufacturer, doc.model, doc.parameters,
        doc.error_codes, doc.troubleshooting, doc.maintenance, sim,
        (simulate_llm_identification fp).confidence⟩ := by
  simp only [get_device_context, lookup, hsearch, hdoc]

/-- C2 witness: the amended statement applied to the concrete fixture
database, where the top-1 similarity is 0. -/
theorem c2_no_threshold_witness :
    (search_similar_devices exNorm (exEmbed (query_text_of exFp))
      (stored_embeddings exEmbed exDb) 1 = [("honeywell_t6_pro", (0 : ℚ))] ∧
     lookup exDb "honeywell_t6_pro" = some exDoc) ∧
    (get_device_context exEmbed exNorm exDb [] exFp).1 =
      some ⟨"honeywell_t6_pro", exDoc.device_type, exDoc.manufacturer, exDoc.model,
        exDoc.parameters, exDoc.error_codes, exDoc.troubleshooting, exDoc.maintenance, 0,
        (simulate_llm_identification exFp).confidence⟩ :=
  ⟨⟨by with_unfolding_all decide, by with_unfolding_all decide⟩,
   c2_no_threshold_amended exEmbed exNorm exDb exFp "honeywell_t6_pro" 0 [] exDoc
     (by with_unfolding_all decide) (by with_unfolding_all decide)⟩

/-- The pattern-history step preserves the rolling-buffer invariant:
appending the current reading and truncating to the last ten entries
keeps the buffer at most ten long and, when the new timestamp is at
least every buffered one, keeps the timestamps non-decreasing. -/
theorem pattern_step_ok (hist : List (Nat × List (String × ℚ))) (now : Nat)
    (spec : DeviceSpec) (data : List (String × ℚ))
    (h1 : history_ok hist) (h2 : ∀ e ∈ hist, e.1 ≤ now) :
    history_ok (detect_pattern_anomalies hist now spec data).2 := by
  obtain ⟨hlen, hpw⟩ := h1
  have hpw1 : (hist ++ [(now, data)]).Pairwise (fun a b => a.1 ≤ b.1) := by
    rw [List.pairwise_append]
    refine ⟨hpw, List.pairwise_singleton _ _, ?_⟩
    intro a ha b hb
    rw [List.mem_singleton] at hb
    subst hb
    exact h2 a ha
  have hsnd : (detect_pattern_anomalies hist now spec data).2 =
      (if (hist ++ [(now, data)]).length > 10
        then (hist ++ [(now, data)]).drop ((hist ++ [(now, data)]).length - 10)
        else hist ++ [(now, data)]) := rfl
  rw [hsnd]
  split_ifs with hgt
  · constructor
    · rw [List.length_drop]
      omega
    · exact hpw1.sublist (List.drop_sublist _ _)
  · constructor
    · rw [List.length_append] at hgt ⊢
      omega
    · exact hpw1

/-- C9: every call to detect_anomalies preserves the rolling-history
invariant — afterwards every per-device pattern history holds at most
ten entries with non-decreasing timestamps — provided the state
satisfied it before and the current timestamp is not earlier than any
buffered one (datetime.now() is non-decreasing). -/
theorem c9_history_invariant (parse : String → Option Int) (mlRes : Except Unit MLResult)
    (now : Nat) (nowDate : Int) (st : DetectorState) (device_id : String)
    (spec : DeviceSpec) (data : List (String × ℚ)) (lastMaint : Option String)
    (h1 : ∀ p ∈ st.pattern_history, history_ok p.2)
    (h2 : ∀ p ∈ st.pattern_history, ∀ e ∈ p.2, e.1 ≤ now) :
    ∀ p ∈ (detect_anomalies parse mlRes now nowDate st device_id spec data
      lastMaint).2.pattern_history, history_ok p.2 := by
  have hstep : history_ok (detect_pattern_anomalies
      ((lookup st.pattern_history device_id).getD []) now spec data).2 := by
    apply pattern_step_ok
    · cases hl : lookup st.pattern_history device_id with
      | none => exact ⟨by simp, List.Pairwise.nil⟩
      | some hh => exact h1 (device_id, hh) (lookup_mem hl)
    · cases hl : lookup st.pattern_history device_id with
      | none => intro e he; simp at he
      | some hh => exact h2 (device_id, hh) (lookup_mem hl)
  intro p hp
  unfold detect_anomalies at hp
  revert hp
  cases htr : detect_trend_anomalies st.device_baselines device_id spec data with
  | error e =>
    intro hp
    exact h1 p hp
  | ok tr =>
    cases hm : detect_maintenance_anomalies parse nowDate spec lastMaint with
    | error e =>
      intro hp
      dsimp only at hp
      rcases mem_update_assoc hp with hq | hmem
      · subst hq
        exact hstep
      · exact h1 p hmem
    | ok a4 =>
      intro hp
      dsimp only at hp
      rcases mem_update_assoc hp with hq | hmem
      · subst hq
        exact hstep
      · exact h1 p hmem

/-- C9 witness: a state with a two-entry ordered history for hvac_001
still satisfies the invariant after a detect_anomalies call at a later
timestamp. -/
theorem c9_history_invariant_witness :
    (∀ p ∈ exStC9.pattern_history, history_ok p.2) ∧
    (∀ p ∈ exStC9.pattern_history, ∀ e ∈ p.2, e.1 ≤ 5) ∧
    (∀ p ∈ (detect_anomalies exParseNone exMLOk 5 0 exStC9 "hvac_001" exSpecC1
      exData2 none).2.pattern_history, history_ok p.2) :=
  ⟨by with_unfolding_all decide, by with_unfolding_all decide,
   c9_history_invariant exParseNone exMLOk 5 0 exStC9 "hvac_001" exSpecC1 exData2 none
     (by with_unfolding_all decide) (by with_unfolding_all decide)⟩

/-- C10 witness: an unparsable date string, a 90-day schedule and a
far-future current date still produce no maintenance report. -/
theorem c10_missing_maintenance_date_witness :
    ((some "not-a-date" : Option String) = none ∨
      (some "not-a-date" : Option String) = some "" ∨
      ∃ s, (some "not-a-date" : Option String) = some s ∧ exParseNone s = none) ∧
    detect_maintenance_anomalies exParseNone 100000 exSpecC10 (some "not-a-date") = .ok [] :=
  ⟨Or.inr (Or.inr ⟨"not-a-date", rfl, rfl⟩),
   c10_missing_maintenance_date_skips exParseNone 100000 exSpecC10 (some "not-a-date")
     (Or.inr (Or.inr ⟨"not-a-date", rfl, rfl⟩))⟩

end AiGateway
